import Mathlib

/-!
Shallow embedding of `src/drivers/misc/sfp/amzn-sfp.c` (the `amzn-sfp`
driver for SFP+, QSFP+, QSFP28 and QSFP-DD modules).  The whole driver's
behaviour relevant to address translation, page caching and the transfer
executor lives in the single function `amzn_sfp_rw`; we embed it as a pure
function from an environment (clock sample, outcomes of the up-to-three
physical `i2c_transfer` calls) and the per-device state (`struct
amzn_sfp_softc`) to a result (return value, new state, trace of physical
operations).

Modelling conventions:
  - Machine integers become `Nat`/`Int`.  `char` is unsigned in the Linux
    kernel (the tree is built with the unsigned-char flag), so the bytes
    stored in `iobuf` are `Nat` values reduced `% 256` where the source
    stores into a `char` or `u8`.
  - `jiffies` is a monotonic `Nat`; the kernel macro `time_in_range(a,b,c)`
    is modelled as the closed interval test `b ≤ a ∧ a ≤ c`, its meaning in
    the absence of counter wrap-around.  One `jiffies` sample is used per
    call (the critical section is far shorter than a tick).
  - Each physical `i2c_transfer` outcome is an oracle in the environment:
    its `int` return (negative errno, or number of messages completed) and,
    for the page-select verification read, the byte the bus delivered.
  - Fallible control flow uses `Except`; the trace records every physical
    operation (page-select read, page-select write, settle sleep, data
    transfer) in program order, each bus event carrying the transfer's
    return value.
-/

namespace AmznSfp

/-- Module-type constants from the top of the source file. -/
def AMZN_SFP_TYPE_SFP_PLUS : Nat := 1

def AMZN_SFP_TYPE_QSFP_PLUS : Nat := 2

def AMZN_SFP_TYPE_QSFP28 : Nat := 3

def AMZN_SFP_TYPE_QSFP_DD : Nat := 4

/-- EEPROM size given an 8-bit register address (256). -/
def AMZN_SFP_FULL_SIZE : Nat := 256

/-- The division into a lower and an upper half (128). -/
def AMZN_SFP_HALF_SIZE : Nat := AMZN_SFP_FULL_SIZE / 2

/-- Page select register for QSFP+, QSFP28 and QSFP-DD modules. -/
def AMZN_QSFP_PAGE_SELECT : Nat := 127

/-- Linux errno values used by the driver (returned negated). -/
def EINVAL : Int := 22

def ENOSPC : Int := 28

def ESPIPE : Int := 29

def EPIPE : Int := 32

def EIO : Int := 5

/-- The tunables (sysctl knobs) and kernel constants the function reads:
`amzn_sfp_page_retention` (default 1 second), `amzn_sfp_page_load_wait_ms`
(default 4 ms) and the tick rate `HZ`. -/
structure Config where
  page_retention : Nat
  page_load_wait_ms : Nat
  hz : Nat
deriving DecidableEq, Repr

/-- Default values of the tunables, with HZ = 1000. -/
def defaultConfig : Config := ⟨1, 4, 1000⟩

/-- Kernel `msecs_to_jiffies`: milliseconds to ticks, rounding up. -/
def msecs_to_jiffies (hz m : Nat) : Nat := (m * hz + 999) / 1000

/-- Kernel `time_in_range(now, lo, hi)`: closed-interval membership
(the macro's meaning when the jiffies counter does not wrap). -/
def time_in_range (now lo hi : Nat) : Bool := decide (lo ≤ now ∧ now ≤ hi)

/-- The mutable per-device state `struct amzn_sfp_softc`, plus the two
creation-time constants the function reads through `ba` and `client`:
the exposed size `ba->size` and the base bus address `client->addr`. -/
structure Softc where
  sfp_type : Nat
  cur_page : Int
  cur_page_ts : Nat
  size : Nat
  addr : Nat
deriving DecidableEq, Repr

/-- The oracle environment of one `amzn_sfp_rw` call: the `jiffies` sample
and the outcomes of the up-to-three `i2c_transfer` invocations. -/
structure Env where
  now : Nat
  pageReadRet : Int
  pageReadByte : Nat
  pageWriteRet : Int
  dataRet : Int
deriving DecidableEq, Repr

/-- Observable physical operations, in program order.  Bus events carry
the `i2c_transfer` return value; the sleep event carries the minimum
microsecond duration passed to `usleep_range`. -/
inductive Ev where
  | pageSelectRead (ret : Int)
  | pageSelectWrite (page : Nat) (ret : Int)
  | sleepSettle (us : Nat)
  | dataTransfer (addr reg len : Nat) (isRead : Bool) (ret : Int)
deriving DecidableEq, Repr

def Ev.isPageSelectRead : Ev → Bool
  | .pageSelectRead _ => true
  | _ => false

def Ev.isPageSelectWrite : Ev → Bool
  | .pageSelectWrite _ _ => true
  | _ => false

def Ev.isSleep : Ev → Bool
  | .sleepSettle _ => true
  | _ => false

def Ev.isDataTransfer : Ev → Bool
  | .dataTransfer _ _ _ _ _ => true
  | _ => false

/-- A bus event is any physical transfer (not the sleep). -/
def Ev.isBusOp (e : Ev) : Bool :=
  e.isPageSelectRead || e.isPageSelectWrite || e.isDataTransfer

/-- A bus transfer that failed (negative `i2c_transfer` return). -/
def Ev.busFailed : Ev → Bool
  | .pageSelectRead r => decide (r < 0)
  | .pageSelectWrite _ r => decide (r < 0)
  | .dataTransfer _ _ _ _ r => decide (r < 0)
  | .sleepSettle _ => false

/-- Result of one `amzn_sfp_rw` call: the `ssize_t` return value (negative
errno or bytes transferred), the state after the call, and the trace of
physical operations performed. -/
structure RwResult where
  ret : Int
  sc : Softc
  trace : List Ev
deriving DecidableEq, Repr

/-- Source lines 216–244: the conditional page-select write.  If the
desired page (the byte in `iobuf[1]`) equals the believed page, no write is
issued; otherwise the page-select write is issued — on failure the belief
is set to -1 and the error propagated, on success the belief becomes the
desired page and the timestamp is refreshed. -/
def qsfp_write_page (env : Env) (sc1 : Softc) (desired : Nat) (tr1 : List Ev) :
    Except (Int × Softc × List Ev) (Softc × List Ev) :=
  if (desired : Int) = sc1.cur_page then
    .ok (sc1, tr1)
  else if env.pageWriteRet < 0 then
    .error (env.pageWriteRet, { sc1 with cur_page := -1 },
            tr1 ++ [.pageSelectWrite desired env.pageWriteRet])
  else
    .ok ({ sc1 with cur_page := (desired : Int), cur_page_ts := env.now },
         tr1 ++ [.pageSelectWrite desired env.pageWriteRet])

/-- Source lines 176–214 followed by the write block: the paged-access
page-ensuring step.  Computes `ts = cur_page_ts + retention * HZ`; if the
page belief is the sentinel -1 or `jiffies` is outside the retention
range, issues the verification read of the page-select register (failure:
belief set to -1, error propagated; success: belief set to the observed
byte, timestamp refreshed), then falls through to `qsfp_write_page`. -/
def qsfp_ensure_page (cfg : Config) (env : Env) (sc : Softc) (desired : Nat) :
    Except (Int × Softc × List Ev) (Softc × List Ev) :=
  let ts := sc.cur_page_ts + cfg.page_retention * cfg.hz
  if sc.cur_page = -1 ∨ time_in_range env.now sc.cur_page_ts ts = false then
    if env.pageReadRet < 0 then
      .error (env.pageReadRet, { sc with cur_page := -1 },
              [.pageSelectRead env.pageReadRet])
    else
      qsfp_write_page env
        { sc with
          cur_page := Int.ofNat (env.pageReadByte % 256)
          cur_page_ts := env.now }
        desired [.pageSelectRead env.pageReadRet]
  else
    qsfp_write_page env sc desired []

/-- Source lines 256–303: the transfer executor.  Clamps the length to the
transport's 64-byte chunk limit, builds one message (write: register byte
plus payload) or two messages (read: register write then data read),
sleeps the settle delay when `jiffies` is within
`msecs_to_jiffies(page_load_wait_ms)` of `cur_page_ts`, then issues the
data-phase transfer: negative return propagates, a non-negative return
different from the message count yields `-EPIPE`, otherwise the clamped
length is returned.  The state is not modified here. -/
def data_phase (cfg : Config) (env : Env) (sc : Softc) (addr reg len : Nat)
    (isRead : Bool) (tr : List Ev) : RwResult :=
  let len := if 64 < len then 64 else len
  let nmsgs : Int := if isRead then 2 else 1
  let doSleep := time_in_range env.now sc.cur_page_ts
      (sc.cur_page_ts + msecs_to_jiffies cfg.hz cfg.page_load_wait_ms)
  let tr2 := tr ++ (if doSleep then [.sleepSettle (cfg.page_load_wait_ms * 1000)] else [])
      ++ [.dataTransfer addr reg len isRead env.dataRet]
  let ret : Int :=
    if env.dataRet < 0 then env.dataRet
    else if env.dataRet ≠ nmsgs then -EPIPE
    else (len : Int)
  ⟨ret, sc, tr2⟩

/-- The byte the source stores into `iobuf[1]` at line 146: the desired
upper page `(ofs / 128) - 1`, truncated to a byte by the `char` store. -/
def qsfp_desired_page (o : Nat) : Nat := (o / AMZN_SFP_HALF_SIZE - 1) % 256

/-- Source lines 88–304, `amzn_sfp_rw`: the complete read/write path.
Validates offset and length (lines 100–106), translates the flat offset
per module type (SFP+: bus-address auto-increment, lines 112–122;
QSFP family: lower half at lines 134–140 or paged upper half at lines
142–245 via `qsfp_ensure_page`; unknown type: flat access, lines 246–253),
then runs the transfer executor (`data_phase`). -/
def amzn_sfp_rw (cfg : Config) (env : Env) (sc : Softc) (ofs : Int)
    (len : Nat) (isRead : Bool) : RwResult :=
  if ofs < 0 ∨ (sc.size : Int) ≤ ofs then ⟨-ESPIPE, sc, []⟩
  else if len = 0 then ⟨-EINVAL, sc, []⟩
  else if (sc.size : Int) < ofs + len then ⟨-ENOSPC, sc, []⟩
  else
    let o := ofs.toNat
    if sc.sfp_type = AMZN_SFP_TYPE_SFP_PLUS then
      let addr := sc.addr + o / AMZN_SFP_FULL_SIZE
      let reg := o % AMZN_SFP_FULL_SIZE
      let len := if AMZN_SFP_FULL_SIZE < len + reg then AMZN_SFP_FULL_SIZE - reg else len
      data_phase cfg env sc addr reg len isRead []
    else if sc.sfp_type = AMZN_SFP_TYPE_QSFP_PLUS ∨
        sc.sfp_type = AMZN_SFP_TYPE_QSFP28 ∨
        sc.sfp_type = AMZN_SFP_TYPE_QSFP_DD then
      if o < AMZN_SFP_HALF_SIZE then
        let reg := o
        let len := if AMZN_SFP_HALF_SIZE < len + reg then AMZN_SFP_HALF_SIZE - reg else len
        data_phase cfg env sc sc.addr reg len isRead []
      else
        let desired := qsfp_desired_page o
        let reg := o % AMZN_SFP_HALF_SIZE + AMZN_SFP_HALF_SIZE
        let len := if AMZN_SFP_FULL_SIZE < len + reg then AMZN_SFP_FULL_SIZE - reg else len
        match qsfp_ensure_page cfg env sc desired with
        | .error (e, sc1, tr) => ⟨e, sc1, tr⟩
        | .ok (sc1, tr) => data_phase cfg env sc1 sc.addr reg len isRead tr
    else
      let reg := o % 256
      data_phase cfg env sc sc.addr reg len isRead []

/-- Source lines 347–377: the exposed size chosen at probe time from the
module type. -/
def amzn_sfp_probe_size (sfp_type : Nat) : Nat :=
  if sfp_type = AMZN_SFP_TYPE_SFP_PLUS then 2 * AMZN_SFP_FULL_SIZE
  else if sfp_type = AMZN_SFP_TYPE_QSFP_PLUS ∨ sfp_type = AMZN_SFP_TYPE_QSFP28 ∨
      sfp_type = AMZN_SFP_TYPE_QSFP_DD then 257 * AMZN_SFP_HALF_SIZE
  else AMZN_SFP_FULL_SIZE

/-- Source lines 324–388, `amzn_sfp_probe`: the freshly created state —
zero-initialised, page belief set to the -1 sentinel. -/
def amzn_sfp_probe (sfp_type addr : Nat) : Softc :=
  ⟨sfp_type, -1, 0, amzn_sfp_probe_size sfp_type, addr⟩

/-- The three module types that take the paged (QSFP-family) branch of the
switch statement. -/
def isQsfpType (t : Nat) : Prop :=
  t = AMZN_SFP_TYPE_QSFP_PLUS ∨ t = AMZN_SFP_TYPE_QSFP28 ∨ t = AMZN_SFP_TYPE_QSFP_DD

instance (t : Nat) : Decidable (isQsfpType t) := by
  unfold isQsfpType
  infer_instance

/-
Helper lemmas: branch-by-branch characterizations of the embedded
functions, used by the claim theorems below.
-/

theorem half_size_eq : AMZN_SFP_HALF_SIZE = 128 := rfl

theorem full_size_eq : AMZN_SFP_FULL_SIZE = 256 := rfl

theorem isQsfpType_ne_sfp_plus {t : Nat} (h : isQsfpType t) :
    ¬ t = AMZN_SFP_TYPE_SFP_PLUS := by
  rcases h with h | h | h <;> simp [h, AMZN_SFP_TYPE_SFP_PLUS, AMZN_SFP_TYPE_QSFP_PLUS,
    AMZN_SFP_TYPE_QSFP28, AMZN_SFP_TYPE_QSFP_DD]

theorem data_phase_sc (cfg : Config) (env : Env) (sc : Softc) (addr reg len : Nat)
    (isRead : Bool) (tr : List Ev) :
    (data_phase cfg env sc addr reg len isRead tr).sc = sc := rfl

theorem data_phase_trace (cfg : Config) (env : Env) (sc : Softc) (addr reg len : Nat)
    (isRead : Bool) (tr : List Ev) :
    (data_phase cfg env sc addr reg len isRead tr).trace =
      tr ++ (if time_in_range env.now sc.cur_page_ts
            (sc.cur_page_ts + msecs_to_jiffies cfg.hz cfg.page_load_wait_ms) = true
          then [.sleepSettle (cfg.page_load_wait_ms * 1000)] else [])
        ++ [.dataTransfer addr reg (if 64 < len then 64 else len) isRead env.dataRet] := rfl

theorem data_phase_ret (cfg : Config) (env : Env) (sc : Softc) (addr reg len : Nat)
    (isRead : Bool) (tr : List Ev) :
    (data_phase cfg env sc addr reg len isRead tr).ret =
      if env.dataRet < 0 then env.dataRet
      else if env.dataRet ≠ (if isRead then (2 : Int) else 1) then -EPIPE
      else (Nat.cast (if 64 < len then 64 else len) : Int) := rfl

theorem qsfp_write_page_spec (env : Env) (sc1 : Softc) (d : Nat) (tr1 : List Ev) :
    ((d : Int) = sc1.cur_page ∧ qsfp_write_page env sc1 d tr1 = .ok (sc1, tr1)) ∨
    ((d : Int) ≠ sc1.cur_page ∧ env.pageWriteRet < 0 ∧
      qsfp_write_page env sc1 d tr1 =
        .error (env.pageWriteRet, { sc1 with cur_page := -1 },
          tr1 ++ [.pageSelectWrite d env.pageWriteRet])) ∨
    ((d : Int) ≠ sc1.cur_page ∧ 0 ≤ env.pageWriteRet ∧
      qsfp_write_page env sc1 d tr1 =
        .ok ({ sc1 with cur_page := (d : Int), cur_page_ts := env.now },
          tr1 ++ [.pageSelectWrite d env.pageWriteRet])) := by
  unfold qsfp_write_page
  split
  · exact Or.inl ⟨by assumption, rfl⟩
  · split
    · exact Or.inr (Or.inl ⟨by assumption, by assumption, rfl⟩)
    · exact Or.inr (Or.inr ⟨by assumption, by omega, rfl⟩)

theorem qsfp_ensure_page_spec (cfg : Config) (env : Env) (sc : Softc) (d : Nat) :
    (¬ (sc.cur_page = -1 ∨ time_in_range env.now sc.cur_page_ts
          (sc.cur_page_ts + cfg.page_retention * cfg.hz) = false) ∧
      qsfp_ensure_page cfg env sc d = qsfp_write_page env sc d []) ∨
    ((sc.cur_page = -1 ∨ time_in_range env.now sc.cur_page_ts
          (sc.cur_page_ts + cfg.page_retention * cfg.hz) = false) ∧
      env.pageReadRet < 0 ∧
      qsfp_ensure_page cfg env sc d =
        .error (env.pageReadRet, { sc with cur_page := -1 },
          [.pageSelectRead env.pageReadRet])) ∨
    ((sc.cur_page = -1 ∨ time_in_range env.now sc.cur_page_ts
          (sc.cur_page_ts + cfg.page_retention * cfg.hz) = false) ∧
      0 ≤ env.pageReadRet ∧
      qsfp_ensure_page cfg env sc d =
        qsfp_write_page env
          { sc with cur_page := Int.ofNat (env.pageReadByte % 256), cur_page_ts := env.now }
          d [.pageSelectRead env.pageReadRet]) := by
  by_cases hrc : sc.cur_page = -1 ∨ time_in_range env.now sc.cur_page_ts
      (sc.cur_page_ts + cfg.page_retention * cfg.hz) = false
  · by_cases hr : env.pageReadRet < 0
    · refine Or.inr (Or.inl ⟨hrc, hr, ?_⟩)
      simp only [qsfp_ensure_page]
      rw [if_pos hrc, if_pos hr]
    · refine Or.inr (Or.inr ⟨hrc, by omega, ?_⟩)
      simp only [qsfp_ensure_page]
      rw [if_pos hrc, if_neg hr]
  · refine Or.inl ⟨hrc, ?_⟩
    simp only [qsfp_ensure_page]
    rw [if_neg hrc]

theorem rw_out_of_range (cfg : Config) (env : Env) (sc : Softc) (ofs : Int) (len : Nat)
    (ir : Bool) (h : ofs < 0 ∨ (sc.size : Int) ≤ ofs) :
    amzn_sfp_rw cfg env sc ofs len ir = ⟨-ESPIPE, sc, []⟩ := by
  simp only [amzn_sfp_rw]
  rw [if_pos h]

theorem rw_zero_len (cfg : Config) (env : Env) (sc : Softc) (ofs : Int) (ir : Bool)
    (h0 : 0 ≤ ofs) (h1 : ofs < (sc.size : Int)) :
    amzn_sfp_rw cfg env sc ofs 0 ir = ⟨-EINVAL, sc, []⟩ := by
  simp only [amzn_sfp_rw]
  rw [if_neg (by omega)]
  simp

theorem rw_out_of_space (cfg : Config) (env : Env) (sc : Softc) (ofs : Int) (len : Nat)
    (ir : Bool) (h0 : 0 ≤ ofs) (h1 : ofs < (sc.size : Int)) (h2 : 0 < len)
    (h3 : (sc.size : Int) < ofs + len) :
    amzn_sfp_rw cfg env sc ofs len ir = ⟨-ENOSPC, sc, []⟩ := by
  simp only [amzn_sfp_rw]
  rw [if_neg (by omega), if_neg (by omega), if_pos h3]

theorem rw_sfp_plus (cfg : Config) (env : Env) (sc : Softc) (o len : Nat) (ir : Bool)
    (hty : sc.sfp_type = AMZN_SFP_TYPE_SFP_PLUS)
    (h2 : o < sc.size) (h3 : 0 < len) (h4 : o + len ≤ sc.size) :
    amzn_sfp_rw cfg env sc (o : Int) len ir =
      data_phase cfg env sc (sc.addr + o / AMZN_SFP_FULL_SIZE) (o % AMZN_SFP_FULL_SIZE)
        (if AMZN_SFP_FULL_SIZE < len + o % AMZN_SFP_FULL_SIZE
         then AMZN_SFP_FULL_SIZE - o % AMZN_SFP_FULL_SIZE else len) ir [] := by
  simp only [amzn_sfp_rw]
  rw [if_neg (by omega), if_neg (by omega), if_neg (by omega)]
  simp only [Int.toNat_natCast]
  rw [if_pos hty]

theorem rw_qsfp_lower (cfg : Config) (env : Env) (sc : Softc) (o len : Nat) (ir : Bool)
    (hty : isQsfpType sc.sfp_type) (ho : o < AMZN_SFP_HALF_SIZE)
    (h2 : o < sc.size) (h3 : 0 < len) (h4 : o + len ≤ sc.size) :
    amzn_sfp_rw cfg env sc (o : Int) len ir =
      data_phase cfg env sc sc.addr o
        (if AMZN_SFP_HALF_SIZE < len + o then AMZN_SFP_HALF_SIZE - o else len) ir [] := by
  simp only [amzn_sfp_rw]
  rw [if_neg (by omega), if_neg (by omega), if_neg (by omega)]
  simp only [Int.toNat_natCast]
  have hty' : sc.sfp_type = AMZN_SFP_TYPE_QSFP_PLUS ∨ sc.sfp_type = AMZN_SFP_TYPE_QSFP28 ∨
      sc.sfp_type = AMZN_SFP_TYPE_QSFP_DD := hty
  rw [if_neg (isQsfpType_ne_sfp_plus hty), if_pos hty', if_pos ho]

theorem rw_qsfp_upper_ok (cfg : Config) (env : Env) (sc : Softc) (o len : Nat) (ir : Bool)
    (sc1 : Softc) (tr : List Ev)
    (hty : isQsfpType sc.sfp_type) (ho : AMZN_SFP_HALF_SIZE ≤ o)
    (h2 : o < sc.size) (h3 : 0 < len) (h4 : o + len ≤ sc.size)
    (hep : qsfp_ensure_page cfg env sc (qsfp_desired_page o) = .ok (sc1, tr)) :
    amzn_sfp_rw cfg env sc (o : Int) len ir =
      data_phase cfg env sc1 sc.addr (o % AMZN_SFP_HALF_SIZE + AMZN_SFP_HALF_SIZE)
        (if AMZN_SFP_FULL_SIZE < len + (o % AMZN_SFP_HALF_SIZE + AMZN_SFP_HALF_SIZE)
         then AMZN_SFP_FULL_SIZE - (o % AMZN_SFP_HALF_SIZE + AMZN_SFP_HALF_SIZE) else len)
        ir tr := by
  simp only [amzn_sfp_rw]
  rw [if_neg (by omega), if_neg (by omega), if_neg (by omega)]
  simp only [Int.toNat_natCast]
  have hty' : sc.sfp_type = AMZN_SFP_TYPE_QSFP_PLUS ∨ sc.sfp_type = AMZN_SFP_TYPE_QSFP28 ∨
      sc.sfp_type = AMZN_SFP_TYPE_QSFP_DD := hty
  rw [if_neg (isQsfpType_ne_sfp_plus hty), if_pos hty', if_neg (by omega : ¬ o < AMZN_SFP_HALF_SIZE)]
  rw [hep]

theorem rw_qsfp_upper_error (cfg : Config) (env : Env) (sc : Softc) (o len : Nat) (ir : Bool)
    (e : Int) (sc1 : Softc) (tr : List Ev)
    (hty : isQsfpType sc.sfp_type) (ho : AMZN_SFP_HALF_SIZE ≤ o)
    (h2 : o < sc.size) (h3 : 0 < len) (h4 : o + len ≤ sc.size)
    (hep : qsfp_ensure_page cfg env sc (qsfp_desired_page o) = .error (e, sc1, tr)) :
    amzn_sfp_rw cfg env sc (o : Int) len ir = ⟨e, sc1, tr⟩ := by
  simp only [amzn_sfp_rw]
  rw [if_neg (by omega), if_neg (by omega), if_neg (by omega)]
  simp only [Int.toNat_natCast]
  have hty' : sc.sfp_type = AMZN_SFP_TYPE_QSFP_PLUS ∨ sc.sfp_type = AMZN_SFP_TYPE_QSFP28 ∨
      sc.sfp_type = AMZN_SFP_TYPE_QSFP_DD := hty
  rw [if_neg (isQsfpType_ne_sfp_plus hty), if_pos hty', if_neg (by omega : ¬ o < AMZN_SFP_HALF_SIZE)]
  rw [hep]

theorem rw_unknown_type (cfg : Config) (env : Env) (sc : Softc) (o len : Nat) (ir : Bool)
    (hty1 : ¬ sc.sfp_type = AMZN_SFP_TYPE_SFP_PLUS) (hty2 : ¬ isQsfpType sc.sfp_type)
    (h2 : o < sc.size) (h3 : 0 < len) (h4 : o + len ≤ sc.size) :
    amzn_sfp_rw cfg env sc (o : Int) len ir =
      data_phase cfg env sc sc.addr (o % 256) len ir [] := by
  simp only [amzn_sfp_rw]
  rw [if_neg (by omega), if_neg (by omega), if_neg (by omega)]
  simp only [Int.toNat_natCast]
  have hty2' : ¬ (sc.sfp_type = AMZN_SFP_TYPE_QSFP_PLUS ∨ sc.sfp_type = AMZN_SFP_TYPE_QSFP28 ∨
      sc.sfp_type = AMZN_SFP_TYPE_QSFP_DD) := hty2
  rw [if_neg hty1, if_neg hty2']

theorem mem_ite_sleep {e : Ev} {c : Prop} [Decidable c] {us : Nat}
    (h : e ∈ (if c then [Ev.sleepSettle us] else [])) : e = Ev.sleepSettle us := by
  split at h <;> simp_all

theorem data_phase_mem (cfg : Config) (env : Env) (sc : Softc) (a g l : Nat)
    (ir : Bool) (tr : List Ev) {e : Ev}
    (h : e ∈ (data_phase cfg env sc a g l ir tr).trace) :
    e ∈ tr ∨ e = Ev.sleepSettle (cfg.page_load_wait_ms * 1000) ∨
      e = Ev.dataTransfer a g (if 64 < l then 64 else l) ir env.dataRet := by
  rw [data_phase_trace] at h
  rcases List.mem_append.1 h with h | h
  · rcases List.mem_append.1 h with h | h
    · exact Or.inl h
    · exact Or.inr (Or.inl (mem_ite_sleep h))
  · exact Or.inr (Or.inr (by simpa using h))

theorem data_phase_data_mem (cfg : Config) (env : Env) (sc : Softc) (a g l : Nat)
    (ir : Bool) (tr : List Ev) :
    Ev.dataTransfer a g (if 64 < l then 64 else l) ir env.dataRet ∈
      (data_phase cfg env sc a g l ir tr).trace := by
  rw [data_phase_trace]
  simp

theorem data_phase_sleep_mem_iff (cfg : Config) (env : Env) (sc : Softc) (a g l : Nat)
    (ir : Bool) (tr : List Ev) (hnos : ∀ us, Ev.sleepSettle us ∉ tr) (us : Nat) :
    (Ev.sleepSettle us ∈ (data_phase cfg env sc a g l ir tr).trace ↔
      (us = cfg.page_load_wait_ms * 1000 ∧
        time_in_range env.now sc.cur_page_ts
          (sc.cur_page_ts + msecs_to_jiffies cfg.hz cfg.page_load_wait_ms) = true)) := by
  rw [data_phase_trace]
  constructor
  · intro h
    rcases List.mem_append.1 h with h | h
    · rcases List.mem_append.1 h with h | h
      · exact absurd h (hnos us)
      · have := mem_ite_sleep h
        refine ⟨by injection this, ?_⟩
        by_contra hc
        rw [if_neg (by simpa using hc)] at h
        simp at h
    · simp at h
  · rintro ⟨h1, h2⟩
    subst h1
    rw [if_pos h2]
    simp

theorem qsfp_ensure_page_ok_cases (cfg : Config) (env : Env) (sc : Softc) (d : Nat)
    (sc1 : Softc) (tr : List Ev)
    (h : qsfp_ensure_page cfg env sc d = .ok (sc1, tr)) :
    (¬ (sc.cur_page = -1 ∨ time_in_range env.now sc.cur_page_ts
          (sc.cur_page_ts + cfg.page_retention * cfg.hz) = false) ∧
      ((sc1 = sc ∧ tr = [] ∧ (d : Int) = sc.cur_page) ∨
       (0 ≤ env.pageWriteRet ∧
        sc1 = { sc with cur_page := (d : Int), cur_page_ts := env.now } ∧
        tr = [Ev.pageSelectWrite d env.pageWriteRet]))) ∨
    ((sc.cur_page = -1 ∨ time_in_range env.now sc.cur_page_ts
          (sc.cur_page_ts + cfg.page_retention * cfg.hz) = false) ∧
      0 ≤ env.pageReadRet ∧
      ((sc1 = { sc with cur_page := Int.ofNat (env.pageReadByte % 256), cur_page_ts := env.now } ∧
        tr = [Ev.pageSelectRead env.pageReadRet] ∧
        (d : Int) = Int.ofNat (env.pageReadByte % 256)) ∨
       (0 ≤ env.pageWriteRet ∧
        sc1 = { sc with cur_page := (d : Int), cur_page_ts := env.now } ∧
        tr = [Ev.pageSelectRead env.pageReadRet, Ev.pageSelectWrite d env.pageWriteRet]))) := by
  rcases qsfp_ensure_page_spec cfg env sc d with ⟨hc, heq⟩ | ⟨hc, hr, heq⟩ | ⟨hc, hr, heq⟩ <;>
    rw [heq] at h
  · rcases qsfp_write_page_spec env sc d [] with ⟨hd, hw⟩ | ⟨hd, hwr, hw⟩ | ⟨hd, hwr, hw⟩ <;>
      rw [hw] at h
    · simp only [Except.ok.injEq, Prod.mk.injEq] at h
      exact Or.inl ⟨hc, Or.inl ⟨h.1.symm, h.2.symm, hd⟩⟩
    · exact Except.noConfusion h
    · simp only [Except.ok.injEq, Prod.mk.injEq] at h
      exact Or.inl ⟨hc, Or.inr ⟨by omega, h.1.symm, by simp [h.2.symm]⟩⟩
  · exact Except.noConfusion h
  · rcases qsfp_write_page_spec env
        { sc with cur_page := Int.ofNat (env.pageReadByte % 256), cur_page_ts := env.now }
        d [Ev.pageSelectRead env.pageReadRet] with ⟨hd, hw⟩ | ⟨hd, hwr, hw⟩ | ⟨hd, hwr, hw⟩ <;>
      rw [hw] at h
    · simp only [Except.ok.injEq, Prod.mk.injEq] at h
      exact Or.inr ⟨hc, by omega, Or.inl ⟨h.1.symm, h.2.symm, hd⟩⟩
    · exact Except.noConfusion h
    · simp only [Except.ok.injEq, Prod.mk.injEq] at h
      exact Or.inr ⟨hc, by omega, Or.inr ⟨by omega, h.1.symm, by simp [h.2.symm]⟩⟩

theorem qsfp_ensure_page_error_cases (cfg : Config) (env : Env) (sc : Softc) (d : Nat)
    (e0 : Int) (sc1 : Softc) (tr : List Ev)
    (h : qsfp_ensure_page cfg env sc d = .error (e0, sc1, tr)) :
    sc1.cur_page = -1 ∧ e0 < 0 ∧
    (((sc.cur_page = -1 ∨ time_in_range env.now sc.cur_page_ts
          (sc.cur_page_ts + cfg.page_retention * cfg.hz) = false) ∧
      e0 = env.pageReadRet ∧ tr = [Ev.pageSelectRead env.pageReadRet]) ∨
     (¬ (sc.cur_page = -1 ∨ time_in_range env.now sc.cur_page_ts
          (sc.cur_page_ts + cfg.page_retention * cfg.hz) = false) ∧
      e0 = env.pageWriteRet ∧ tr = [Ev.pageSelectWrite d env.pageWriteRet]) ∨
     ((sc.cur_page = -1 ∨ time_in_range env.now sc.cur_page_ts
          (sc.cur_page_ts + cfg.page_retention * cfg.hz) = false) ∧
      0 ≤ env.pageReadRet ∧ e0 = env.pageWriteRet ∧
      tr = [Ev.pageSelectRead env.pageReadRet, Ev.pageSelectWrite d env.pageWriteRet])) := by
  rcases qsfp_ensure_page_spec cfg env sc d with ⟨hc, heq⟩ | ⟨hc, hr, heq⟩ | ⟨hc, hr, heq⟩ <;>
    rw [heq] at h
  · rcases qsfp_write_page_spec env sc d [] with ⟨hd, hw⟩ | ⟨hd, hwr, hw⟩ | ⟨hd, hwr, hw⟩ <;>
      rw [hw] at h
    · exact Except.noConfusion h
    · simp only [Except.error.injEq, Prod.mk.injEq] at h
      refine ⟨?_, by omega, Or.inr (Or.inl ⟨hc, h.1.symm, by simp [h.2.2.symm]⟩)⟩
      rw [← h.2.1]
    · exact Except.noConfusion h
  · simp only [Except.error.injEq, Prod.mk.injEq] at h
    refine ⟨?_, by omega, Or.inl ⟨hc, h.1.symm, h.2.2.symm⟩⟩
    rw [← h.2.1]
  · rcases qsfp_write_page_spec env
        { sc with cur_page := Int.ofNat (env.pageReadByte % 256), cur_page_ts := env.now }
        d [Ev.pageSelectRead env.pageReadRet] with ⟨hd, hw⟩ | ⟨hd, hwr, hw⟩ | ⟨hd, hwr, hw⟩ <;>
      rw [hw] at h
    · exact Except.noConfusion h
    · simp only [Except.error.injEq, Prod.mk.injEq] at h
      refine ⟨?_, by omega, Or.inr (Or.inr ⟨hc, by omega, h.1.symm, by simp [h.2.2.symm]⟩)⟩
      rw [← h.2.1]
    · exact Except.noConfusion h

theorem qsfp_desired_page_eq (o : Nat) (h1 : AMZN_SFP_HALF_SIZE ≤ o)
    (h2 : o < 257 * AMZN_SFP_HALF_SIZE) :
    qsfp_desired_page o = o / 128 - 1 := by
  have e1 : AMZN_SFP_HALF_SIZE = 128 := rfl
  rw [e1] at h1 h2
  unfold qsfp_desired_page
  rw [e1]
  exact Nat.mod_eq_of_lt (by omega)

theorem data_phase_filter_bus (cfg : Config) (env : Env) (sc : Softc) (a g l : Nat)
    (ir : Bool) (tr : List Ev) :
    ((data_phase cfg env sc a g l ir tr).trace.filter Ev.isBusOp) =
      tr.filter Ev.isBusOp ++
        [Ev.dataTransfer a g (if 64 < l then 64 else l) ir env.dataRet] := by
  rw [data_phase_trace, List.filter_append, List.filter_append]
  have hmid : (if time_in_range env.now sc.cur_page_ts
        (sc.cur_page_ts + msecs_to_jiffies cfg.hz cfg.page_load_wait_ms) = true
      then [Ev.sleepSettle (cfg.page_load_wait_ms * 1000)] else []).filter Ev.isBusOp = [] := by
    split <;> simp [Ev.isBusOp, Ev.isPageSelectRead, Ev.isPageSelectWrite, Ev.isDataTransfer, Ev.isSleep]
  rw [hmid]
  simp [Ev.isBusOp, Ev.isDataTransfer]

theorem data_phase_filter_page (cfg : Config) (env : Env) (sc : Softc) (a g l : Nat)
    (ir : Bool) (tr : List Ev) :
    ((data_phase cfg env sc a g l ir tr).trace.filter Ev.isPageSelectWrite) =
      tr.filter Ev.isPageSelectWrite ∧
    ((data_phase cfg env sc a g l ir tr).trace.filter Ev.isPageSelectRead) =
      tr.filter Ev.isPageSelectRead := by
  rw [data_phase_trace]
  constructor
  · rw [List.filter_append, List.filter_append,
      show (if time_in_range env.now sc.cur_page_ts
          (sc.cur_page_ts + msecs_to_jiffies cfg.hz cfg.page_load_wait_ms) = true
        then [Ev.sleepSettle (cfg.page_load_wait_ms * 1000)] else []).filter Ev.isPageSelectWrite
          = [] from by split <;> simp [Ev.isPageSelectWrite]]
    simp [Ev.isPageSelectWrite]
  · rw [List.filter_append, List.filter_append,
      show (if time_in_range env.now sc.cur_page_ts
          (sc.cur_page_ts + msecs_to_jiffies cfg.hz cfg.page_load_wait_ms) = true
        then [Ev.sleepSettle (cfg.page_load_wait_ms * 1000)] else []).filter Ev.isPageSelectRead
          = [] from by split <;> simp [Ev.isPageSelectRead]]
    simp [Ev.isPageSelectRead]

theorem data_phase_ret_nonneg (cfg : Config) (env : Env) (sc : Softc) (a g l : Nat)
    (ir : Bool) (tr : List Ev)
    (h : 0 ≤ (data_phase cfg env sc a g l ir tr).ret) :
    (data_phase cfg env sc a g l ir tr).ret = (Nat.cast (if 64 < l then 64 else l) : Int) := by
  rw [data_phase_ret] at h ⊢
  rcases lt_or_ge env.dataRet 0 with hd | hd
  · rw [if_pos hd] at h
    omega
  · rw [if_neg (by omega)] at h ⊢
    by_cases hn : env.dataRet ≠ (if ir then (2 : Int) else 1)
    · rw [if_pos hn] at h
      norm_num [EPIPE] at h
    · rw [if_neg hn]

theorem ep_ok_mem (cfg : Config) (env : Env) (sc : Softc) (d : Nat) (sc1 : Softc)
    (tr : List Ev) (h : qsfp_ensure_page cfg env sc d = .ok (sc1, tr)) :
    ∀ e ∈ tr, e = Ev.pageSelectRead env.pageReadRet ∨
      e = Ev.pageSelectWrite d env.pageWriteRet := by
  rcases qsfp_ensure_page_ok_cases cfg env sc d sc1 tr h with
    ⟨_, ⟨_, htr, _⟩ | ⟨_, _, htr⟩⟩ | ⟨_, _, ⟨_, htr, _⟩ | ⟨_, _, htr⟩⟩ <;>
    subst htr <;> intro e he <;> simp at he <;> tauto

theorem ep_error_mem (cfg : Config) (env : Env) (sc : Softc) (d : Nat) (e0 : Int)
    (sc1 : Softc) (tr : List Ev)
    (h : qsfp_ensure_page cfg env sc d = .error (e0, sc1, tr)) :
    ∀ e ∈ tr, e = Ev.pageSelectRead env.pageReadRet ∨
      e = Ev.pageSelectWrite d env.pageWriteRet := by
  rcases qsfp_ensure_page_error_cases cfg env sc d e0 sc1 tr h with
    ⟨_, _, ⟨_, _, htr⟩ | ⟨_, _, htr⟩ | ⟨_, _, _, htr⟩⟩ <;>
    subst htr <;> intro e he <;> simp at he <;> tauto

/-
Claim theorems.
-/

/-- C7: For every read or write request on any session: an offset below 0
or at or beyond the exposed size fails with the out-of-range error
(-ESPIPE); an in-range offset with zero length fails with the
invalid-argument error (-EINVAL); an in-range offset with positive length
running past the exposed size fails with the out-of-space error (-ENOSPC).
Each case is detected before any physical bus access (the trace is empty),
the session state is unchanged, and no clamping is applied — the request
is rejected whole. -/
theorem C7_request_shape_errors (cfg : Config) (env : Env) (sc : Softc) (ofs : Int)
    (len : Nat) (ir : Bool) :
    ((ofs < 0 ∨ (sc.size : Int) ≤ ofs) →
      amzn_sfp_rw cfg env sc ofs len ir = ⟨-ESPIPE, sc, []⟩) ∧
    (0 ≤ ofs → ofs < (sc.size : Int) → len = 0 →
      amzn_sfp_rw cfg env sc ofs len ir = ⟨-EINVAL, sc, []⟩) ∧
    (0 ≤ ofs → ofs < (sc.size : Int) → 0 < len → (sc.size : Int) < ofs + len →
      amzn_sfp_rw cfg env sc ofs len ir = ⟨-ENOSPC, sc, []⟩) := by
  refine ⟨fun h => rw_out_of_range cfg env sc ofs len ir h,
          fun h0 h1 hl => ?_,
          fun h0 h1 h2 h3 => rw_out_of_space cfg env sc ofs len ir h0 h1 h2 h3⟩
  subst hl
  exact rw_zero_len cfg env sc ofs ir h0 h1

/-- Witness for C7 on a QSFP28 session of size 257 * 128 = 32896: offset
40000 is out of range, offset 100 with length 0 is invalid, offset 32890
with length 10 runs out of space. -/
theorem C7_request_shape_errors_witness :
    amzn_sfp_rw defaultConfig ⟨0, 2, 0, 2, 2⟩ (amzn_sfp_probe AMZN_SFP_TYPE_QSFP28 80)
        40000 4 true = ⟨-ESPIPE, amzn_sfp_probe AMZN_SFP_TYPE_QSFP28 80, []⟩ ∧
    amzn_sfp_rw defaultConfig ⟨0, 2, 0, 2, 2⟩ (amzn_sfp_probe AMZN_SFP_TYPE_QSFP28 80)
        100 0 true = ⟨-EINVAL, amzn_sfp_probe AMZN_SFP_TYPE_QSFP28 80, []⟩ ∧
    amzn_sfp_rw defaultConfig ⟨0, 2, 0, 2, 2⟩ (amzn_sfp_probe AMZN_SFP_TYPE_QSFP28 80)
        32890 10 true = ⟨-ENOSPC, amzn_sfp_probe AMZN_SFP_TYPE_QSFP28 80, []⟩ :=
  ⟨(C7_request_shape_errors _ _ _ _ _ _).1 (by decide),
   (C7_request_shape_errors _ _ _ _ _ _).2.1 (by decide) (by decide) rfl,
   (C7_request_shape_errors _ _ _ _ _ _).2.2 (by decide) (by decide) (by decide) (by decide)⟩

/-- C8: For every valid (offset, length) within an SFP_PLUS session's
512-byte space, every data-phase transfer issued by the access targets bus
address base + offset / 256 and register offset % 256, with a transfer
length at most the requested length, at most 256 - offset % 256, and never
spanning the 256-byte boundary (register + length ≤ 256). -/
theorem C8_sfp_plus_no_boundary_cross (cfg : Config) (env : Env) (sc : Softc)
    (o len : Nat) (ir : Bool)
    (hty : sc.sfp_type = AMZN_SFP_TYPE_SFP_PLUS) (hsz : sc.size = 2 * AMZN_SFP_FULL_SIZE)
    (h2 : o < sc.size) (h3 : 0 < len) (h4 : o + len ≤ sc.size) :
    ∀ a g l b rt,
      Ev.dataTransfer a g l b rt ∈ (amzn_sfp_rw cfg env sc (o : Int) len ir).trace →
      a = sc.addr + o / 256 ∧ g = o % 256 ∧ l ≤ len ∧ l ≤ 256 - o % 256 ∧ g + l ≤ 256 := by
  intro a g l b rt hmem
  rw [rw_sfp_plus cfg env sc o len ir hty h2 h3 h4] at hmem
  rcases data_phase_mem _ _ _ _ _ _ _ _ hmem with h | h | h
  · simp at h
  · exact Ev.noConfusion h
  · rw [full_size_eq] at h
    injection h with ha hg hl hb hr
    subst ha
    subst hg
    subst hl
    refine ⟨rfl, rfl, ?_, ?_, ?_⟩ <;> (split_ifs <;> omega)

/-- Witness for C8: SFP_PLUS session, write of 10 bytes at offset 300
(the spec's own end-to-end scenario): bus address base + 1, register 44. -/
theorem C8_sfp_plus_no_boundary_cross_witness :
    Ev.dataTransfer 81 44 10 false 1 ∈
      (amzn_sfp_rw defaultConfig ⟨100, 2, 0, 2, 1⟩ (amzn_sfp_probe AMZN_SFP_TYPE_SFP_PLUS 80)
        300 10 false).trace ∧
    (81 = 80 + 300 / 256 ∧ 44 = 300 % 256 ∧ 10 ≤ 10 ∧ 10 ≤ 256 - 300 % 256 ∧
      44 + 10 ≤ 256) :=
  ⟨by decide,
   C8_sfp_plus_no_boundary_cross defaultConfig ⟨100, 2, 0, 2, 1⟩
     (amzn_sfp_probe AMZN_SFP_TYPE_SFP_PLUS 80) 300 10 false rfl rfl
     (by decide) (by decide) (by decide) 81 44 10 false 1 (by decide)⟩

/-- C10: For every read or write on a session whose type is not in the
QSFP family (SFP_PLUS or unknown), the page-cache state (believed page and
its timestamp) is left unchanged (in fact the whole session state is), no
page-select read or write is ever issued, at most one bus transaction
appears in the trace, and for a valid request the bus activity is exactly
the single data-phase transfer. -/
theorem C10_nonpaged_frame (cfg : Config) (env : Env) (sc : Softc) (ofs : Int)
    (len : Nat) (ir : Bool) (hty : ¬ isQsfpType sc.sfp_type) :
    (amzn_sfp_rw cfg env sc ofs len ir).sc = sc ∧
    (∀ e ∈ (amzn_sfp_rw cfg env sc ofs len ir).trace,
      e.isPageSelectRead = false ∧ e.isPageSelectWrite = false) ∧
    ((amzn_sfp_rw cfg env sc ofs len ir).trace.filter Ev.isBusOp).length ≤ 1 ∧
    (0 ≤ ofs → ofs < (sc.size : Int) → 0 < len → ofs + len ≤ (sc.size : Int) →
      ∃ a g l rt, (amzn_sfp_rw cfg env sc ofs len ir).trace.filter Ev.isBusOp =
        [Ev.dataTransfer a g l ir rt]) := by
  by_cases h0 : ofs < 0 ∨ (sc.size : Int) ≤ ofs
  · rw [rw_out_of_range cfg env sc ofs len ir h0]
    exact ⟨rfl, by simp, by simp, fun hv1 hv2 _ _ => by omega⟩
  · by_cases hl : len = 0
    · subst hl
      rw [rw_zero_len cfg env sc ofs ir (by omega) (by omega)]
      exact ⟨rfl, by simp, by simp, fun _ _ h3 _ => by omega⟩
    · by_cases hsp : (sc.size : Int) < ofs + len
      · rw [rw_out_of_space cfg env sc ofs len ir (by omega) (by omega) (by omega) hsp]
        exact ⟨rfl, by simp, by simp, fun _ _ _ h4 => by omega⟩
      · lift ofs to Nat using (by omega : (0 : Int) ≤ ofs) with o
        have h2 : o < sc.size := by omega
        have h3 : 0 < len := by omega
        have h4 : o + len ≤ sc.size := by omega
        have hrun : ∃ a g l,
            amzn_sfp_rw cfg env sc (o : Int) len ir = data_phase cfg env sc a g l ir [] := by
          by_cases h1 : sc.sfp_type = AMZN_SFP_TYPE_SFP_PLUS
          · exact ⟨_, _, _, rw_sfp_plus cfg env sc o len ir h1 h2 h3 h4⟩
          · exact ⟨_, _, _, rw_unknown_type cfg env sc o len ir h1 hty h2 h3 h4⟩
        obtain ⟨a, g, l, hrun⟩ := hrun
        rw [hrun]
        refine ⟨data_phase_sc cfg env sc a g l ir [], ?_, ?_, ?_⟩
        · intro e he
          rcases data_phase_mem _ _ _ _ _ _ _ _ he with h | h | h
          · simp at h
          · subst h
            exact ⟨rfl, rfl⟩
          · subst h
            exact ⟨rfl, rfl⟩
        · rw [data_phase_filter_bus]
          simp
        · intro _ _ _ _
          rw [data_phase_filter_bus]
          exact ⟨a, g, if 64 < l then 64 else l, env.dataRet, by simp⟩

/-- Witness for C10: a valid read on an SFP_PLUS session leaves the state
untouched and the only bus activity is the one data transfer. -/
theorem C10_nonpaged_frame_witness :
    (amzn_sfp_rw defaultConfig ⟨100, 2, 0, 2, 2⟩ ⟨AMZN_SFP_TYPE_SFP_PLUS, 7, 50, 512, 80⟩
        10 5 true).sc = ⟨AMZN_SFP_TYPE_SFP_PLUS, 7, 50, 512, 80⟩ ∧
    ∃ a g l rt, (amzn_sfp_rw defaultConfig ⟨100, 2, 0, 2, 2⟩
        ⟨AMZN_SFP_TYPE_SFP_PLUS, 7, 50, 512, 80⟩ 10 5 true).trace.filter Ev.isBusOp =
      [Ev.dataTransfer a g l true rt] :=
  ⟨(C10_nonpaged_frame defaultConfig ⟨100, 2, 0, 2, 2⟩ ⟨AMZN_SFP_TYPE_SFP_PLUS, 7, 50, 512, 80⟩
      10 5 true (by decide)).1,
   (C10_nonpaged_frame defaultConfig ⟨100, 2, 0, 2, 2⟩ ⟨AMZN_SFP_TYPE_SFP_PLUS, 7, 50, 512, 80⟩
      10 5 true (by decide)).2.2.2 (by decide) (by decide) (by decide) (by decide)⟩

/-- C9: For every valid request that succeeds, the returned byte count
equals the clamped transfer length of the data-phase transfer: it never
exceeds the requested length, never exceeds the transport's 64-byte chunk
limit, and never exceeds the applicable boundary clamp for the session's
class; excess bytes are simply not transferred in that call. -/
theorem C9_return_clamped (cfg : Config) (env : Env) (sc : Softc) (o len : Nat) (ir : Bool)
    (h2 : o < sc.size) (h3 : 0 < len) (h4 : o + len ≤ sc.size)
    (hret : 0 ≤ (amzn_sfp_rw cfg env sc (o : Int) len ir).ret) :
    (amzn_sfp_rw cfg env sc (o : Int) len ir).ret ≤ (len : Int) ∧
    (amzn_sfp_rw cfg env sc (o : Int) len ir).ret ≤ 64 ∧
    (∃ a g l rt,
      Ev.dataTransfer a g l ir rt ∈ (amzn_sfp_rw cfg env sc (o : Int) len ir).trace ∧
      (l : Int) = (amzn_sfp_rw cfg env sc (o : Int) len ir).ret) ∧
    (sc.sfp_type = AMZN_SFP_TYPE_SFP_PLUS →
      (amzn_sfp_rw cfg env sc (o : Int) len ir).ret ≤ ((256 - o % 256 : Nat) : Int)) ∧
    (isQsfpType sc.sfp_type →
      (o < 128 → (amzn_sfp_rw cfg env sc (o : Int) len ir).ret ≤ ((128 - o : Nat) : Int)) ∧
      (128 ≤ o →
        (amzn_sfp_rw cfg env sc (o : Int) len ir).ret ≤ ((128 - o % 128 : Nat) : Int))) := by
  by_cases h1 : sc.sfp_type = AMZN_SFP_TYPE_SFP_PLUS
  · rw [rw_sfp_plus cfg env sc o len ir h1 h2 h3 h4] at hret ⊢
    have he := data_phase_ret_nonneg _ _ _ _ _ _ _ _ hret
    rw [he]
    simp only [full_size_eq]
    refine ⟨?_, ?_, ⟨_, _, _, _, data_phase_data_mem _ _ _ _ _ _ _ _, rfl⟩, ?_, ?_⟩
    · split_ifs <;> omega
    · split_ifs <;> omega
    · intro _
      split_ifs <;> omega
    · intro hq
      exact absurd h1 (isQsfpType_ne_sfp_plus hq)
  · by_cases hq : isQsfpType sc.sfp_type
    · by_cases ho : o < 128
      · rw [rw_qsfp_lower cfg env sc o len ir hq (by simp only [half_size_eq]; omega)
            h2 h3 h4] at hret ⊢
        have he := data_phase_ret_nonneg _ _ _ _ _ _ _ _ hret
        rw [he]
        simp only [half_size_eq]
        refine ⟨?_, ?_, ⟨_, _, _, _, data_phase_data_mem _ _ _ _ _ _ _ _, rfl⟩, ?_, ?_⟩
        · split_ifs <;> omega
        · split_ifs <;> omega
        · intro h1x
          exact absurd h1x h1
        · intro _
          refine ⟨fun _ => ?_, fun hc => by omega⟩
          split_ifs <;> omega
      · cases hE : qsfp_ensure_page cfg env sc (qsfp_desired_page o) with
        | error p =>
          obtain ⟨e0, sc1, tr⟩ := p
          rw [rw_qsfp_upper_error cfg env sc o len ir e0 sc1 tr hq
              (by simp only [half_size_eq]; omega) h2 h3 h4 hE] at hret
          have := (qsfp_ensure_page_error_cases cfg env sc _ e0 sc1 tr hE).2.1
          simp at hret
          omega
        | ok p =>
          obtain ⟨sc1, tr⟩ := p
          rw [rw_qsfp_upper_ok cfg env sc o len ir sc1 tr hq
              (by simp only [half_size_eq]; omega) h2 h3 h4 hE] at hret ⊢
          have he := data_phase_ret_nonneg _ _ _ _ _ _ _ _ hret
          rw [he]
          simp only [half_size_eq, full_size_eq]
          refine ⟨?_, ?_, ⟨_, _, _, _, data_phase_data_mem _ _ _ _ _ _ _ _, rfl⟩, ?_, ?_⟩
          · split_ifs <;> omega
          · split_ifs <;> omega
          · intro h1x
            exact absurd h1x h1
          · intro _
            refine ⟨fun hc => by omega, fun _ => ?_⟩
            split_ifs <;> omega
    · rw [rw_unknown_type cfg env sc o len ir h1 hq h2 h3 h4] at hret ⊢
      have he := data_phase_ret_nonneg _ _ _ _ _ _ _ _ hret
      rw [he]
      refine ⟨?_, ?_, ⟨_, _, _, _, data_phase_data_mem _ _ _ _ _ _ _ _, rfl⟩, ?_, ?_⟩
      · split_ifs <;> omega
      · split_ifs <;> omega
      · intro h1x
        exact absurd h1x h1
      · intro hqx
        exact absurd hqx hq

/-- Witness for C9: the QSFP28 read of 50 bytes at offset 200 succeeds and
returns exactly 50. -/
theorem C9_return_clamped_witness :
    (amzn_sfp_rw defaultConfig ⟨100, 2, 0, 2, 2⟩ ⟨AMZN_SFP_TYPE_QSFP28, -1, 0, 32896, 80⟩
        200 50 true).ret ≤ 50 ∧
    (amzn_sfp_rw defaultConfig ⟨100, 2, 0, 2, 2⟩ ⟨AMZN_SFP_TYPE_QSFP28, -1, 0, 32896, 80⟩
        200 50 true).ret ≤ 64 :=
  ⟨(C9_return_clamped defaultConfig ⟨100, 2, 0, 2, 2⟩ ⟨AMZN_SFP_TYPE_QSFP28, -1, 0, 32896, 80⟩
      200 50 true (by decide) (by decide) (by decide) (by decide)).1,
   (C9_return_clamped defaultConfig ⟨100, 2, 0, 2, 2⟩ ⟨AMZN_SFP_TYPE_QSFP28, -1, 0, 32896, 80⟩
      200 50 true (by decide) (by decide) (by decide) (by decide)).2.1⟩

/-- C2: For every valid offset in a QSFP-family session (size 257 * 128):
if offset < 128 the access stays in the lower half — no page-select read
or write is triggered, the data-phase register equals the offset, and the
length is clamped to at most 128 - offset so the transfer never crosses
into the upper half; if offset >= 128 the desired page equals
offset / 128 - 1 (any page-select write carries exactly that page), the
data-phase register equals (offset % 128) + 128 and lies in [128, 256),
and the length is clamped to at most 256 - register, so a single transfer
never crosses a page boundary. -/
theorem C2_qsfp_translation (cfg : Config) (env : Env) (sc : Softc) (o len : Nat)
    (ir : Bool) (hty : isQsfpType sc.sfp_type) (hsz : sc.size = 257 * AMZN_SFP_HALF_SIZE)
    (h2 : o < sc.size) (h3 : 0 < len) (h4 : o + len ≤ sc.size) :
    (o < 128 →
      (∀ e ∈ (amzn_sfp_rw cfg env sc (o : Int) len ir).trace,
        e.isPageSelectRead = false ∧ e.isPageSelectWrite = false) ∧
      (∀ a g l b rt,
        Ev.dataTransfer a g l b rt ∈ (amzn_sfp_rw cfg env sc (o : Int) len ir).trace →
        g = o ∧ l ≤ 128 - o ∧ g + l ≤ 128)) ∧
    (128 ≤ o →
      qsfp_desired_page o = o / 128 - 1 ∧
      (∀ p rt,
        Ev.pageSelectWrite p rt ∈ (amzn_sfp_rw cfg env sc (o : Int) len ir).trace →
        p = o / 128 - 1) ∧
      (∀ a g l b rt,
        Ev.dataTransfer a g l b rt ∈ (amzn_sfp_rw cfg env sc (o : Int) len ir).trace →
        g = o % 128 + 128 ∧ 128 ≤ g ∧ g < 256 ∧ l ≤ 256 - g ∧ g + l ≤ 256)) := by
  constructor
  · intro ho
    rw [rw_qsfp_lower cfg env sc o len ir hty (by simp only [half_size_eq]; omega) h2 h3 h4]
    constructor
    · intro e he
      rcases data_phase_mem _ _ _ _ _ _ _ _ he with h | h | h
      · simp at h
      · subst h
        exact ⟨rfl, rfl⟩
      · subst h
        exact ⟨rfl, rfl⟩
    · intro a g l b rt hmem
      rcases data_phase_mem _ _ _ _ _ _ _ _ hmem with h | h | h
      · simp at h
      · exact Ev.noConfusion h
      · rw [half_size_eq] at h
        injection h with ha hg hl hb hr
        subst hg
        subst hl
        refine ⟨rfl, ?_, ?_⟩ <;> (split_ifs <;> omega)
  · intro ho
    have hdp : qsfp_desired_page o = o / 128 - 1 :=
      qsfp_desired_page_eq o (by simp only [half_size_eq]; omega) (hsz ▸ h2)
    refine ⟨hdp, ?_⟩
    cases hE : qsfp_ensure_page cfg env sc (qsfp_desired_page o) with
    | error p =>
      obtain ⟨e0, sc1, tr⟩ := p
      rw [rw_qsfp_upper_error cfg env sc o len ir e0 sc1 tr hty
          (by simp only [half_size_eq]; omega) h2 h3 h4 hE]
      constructor
      · intro p rt hmem
        rcases ep_error_mem cfg env sc _ e0 sc1 tr hE _ hmem with h | h
        · exact Ev.noConfusion h
        · injection h with hp hrt
          rw [hp, hdp]
      · intro a g l b rt hmem
        rcases ep_error_mem cfg env sc _ e0 sc1 tr hE _ hmem with h | h
        · exact Ev.noConfusion h
        · exact Ev.noConfusion h
    | ok p =>
      obtain ⟨sc1, tr⟩ := p
      rw [rw_qsfp_upper_ok cfg env sc o len ir sc1 tr hty
          (by simp only [half_size_eq]; omega) h2 h3 h4 hE]
      constructor
      · intro p rt hmem
        rcases data_phase_mem _ _ _ _ _ _ _ _ hmem with h | h | h
        · rcases ep_ok_mem cfg env sc _ sc1 tr hE _ h with h1 | h1
          · exact Ev.noConfusion h1
          · injection h1 with hp hrt
            rw [hp, hdp]
        · exact Ev.noConfusion h
        · exact Ev.noConfusion h
      · intro a g l b rt hmem
        rcases data_phase_mem _ _ _ _ _ _ _ _ hmem with h | h | h
        · rcases ep_ok_mem cfg env sc _ sc1 tr hE _ h with h1 | h1
          · exact Ev.noConfusion h1
          · exact Ev.noConfusion h1
        · exact Ev.noConfusion h
        · rw [half_size_eq, full_size_eq] at h
          injection h with ha hg hl hb hr
          subst hg
          subst hl
          refine ⟨rfl, by omega, by omega, ?_, ?_⟩ <;> (split_ifs <;> omega)

/-- Witness for C2: the spec's end-to-end QSFP28 scenario, a 50-byte read
at offset 200: desired page 0, data-phase register 200. -/
theorem C2_qsfp_translation_witness :
    qsfp_desired_page 200 = 200 / 128 - 1 ∧
    ∀ a g l b rt,
      Ev.dataTransfer a g l b rt ∈ (amzn_sfp_rw defaultConfig ⟨100, 2, 0, 2, 2⟩
        ⟨AMZN_SFP_TYPE_QSFP28, -1, 0, 32896, 80⟩ 200 50 true).trace →
      g = 200 % 128 + 128 ∧ 128 ≤ g ∧ g < 256 ∧ l ≤ 256 - g ∧ g + l ≤ 256 :=
  ⟨((C2_qsfp_translation defaultConfig ⟨100, 2, 0, 2, 2⟩
      ⟨AMZN_SFP_TYPE_QSFP28, -1, 0, 32896, 80⟩ 200 50 true (by decide) (by decide)
      (by decide) (by decide) (by decide)).2 (by decide)).1,
   ((C2_qsfp_translation defaultConfig ⟨100, 2, 0, 2, 2⟩
      ⟨AMZN_SFP_TYPE_QSFP28, -1, 0, 32896, 80⟩ 200 50 true (by decide) (by decide)
      (by decide) (by decide) (by decide)).2 (by decide)).2.2⟩

/-- C6: For every valid upper-half access on a paged session: a physical
read of the page-select register is issued iff the believed page is the -1
sentinel or the current time lies outside the retention window of the last
verified timestamp — this is independent of whether the believed page
already equals the desired page; otherwise no verification read is issued.
When issued, the verification read is the first physical operation of the
access (before the belief is trusted). -/
theorem C6_verification_read_iff (cfg : Config) (env : Env) (sc : Softc) (o len : Nat)
    (ir : Bool) (hty : isQsfpType sc.sfp_type) (ho : 128 ≤ o)
    (h2 : o < sc.size) (h3 : 0 < len) (h4 : o + len ≤ sc.size) :
    ((∃ rt, Ev.pageSelectRead rt ∈ (amzn_sfp_rw cfg env sc (o : Int) len ir).trace) ↔
      (sc.cur_page = -1 ∨ time_in_range env.now sc.cur_page_ts
        (sc.cur_page_ts + cfg.page_retention * cfg.hz) = false)) ∧
    ((sc.cur_page = -1 ∨ time_in_range env.now sc.cur_page_ts
        (sc.cur_page_ts + cfg.page_retention * cfg.hz) = false) →
      (amzn_sfp_rw cfg env sc (o : Int) len ir).trace.head? =
        some (Ev.pageSelectRead env.pageReadRet)) := by
  cases hE : qsfp_ensure_page cfg env sc (qsfp_desired_page o) with
  | error p =>
    obtain ⟨e0, sc1, tr⟩ := p
    rw [rw_qsfp_upper_error cfg env sc o len ir e0 sc1 tr hty
        (by simp only [half_size_eq]; omega) h2 h3 h4 hE]
    rcases qsfp_ensure_page_error_cases cfg env sc _ e0 sc1 tr hE with
      ⟨_, _, ⟨hrc, _, htr⟩ | ⟨hnrc, _, htr⟩ | ⟨hrc, _, _, htr⟩⟩ <;> subst htr
    · exact ⟨⟨fun _ => hrc, fun _ => ⟨env.pageReadRet, by simp⟩⟩, fun _ => rfl⟩
    · refine ⟨⟨fun hex => ?_, fun hrc => absurd hrc hnrc⟩, fun hrc => absurd hrc hnrc⟩
      obtain ⟨rt, hmem⟩ := hex
      simp at hmem
    · exact ⟨⟨fun _ => hrc, fun _ => ⟨env.pageReadRet, by simp⟩⟩, fun _ => rfl⟩
  | ok p =>
    obtain ⟨sc1, tr⟩ := p
    rw [rw_qsfp_upper_ok cfg env sc o len ir sc1 tr hty
        (by simp only [half_size_eq]; omega) h2 h3 h4 hE]
    rcases qsfp_ensure_page_ok_cases cfg env sc _ sc1 tr hE with
      ⟨hnrc, ⟨_, htr, _⟩ | ⟨_, _, htr⟩⟩ | ⟨hrc, _, ⟨_, htr, _⟩ | ⟨_, _, htr⟩⟩ <;> subst htr
    · refine ⟨⟨fun hex => ?_, fun hrc => absurd hrc hnrc⟩, fun hrc => absurd hrc hnrc⟩
      obtain ⟨rt, hmem⟩ := hex
      rcases data_phase_mem _ _ _ _ _ _ _ _ hmem with h | h | h
      · simp at h
      · exact Ev.noConfusion h
      · exact Ev.noConfusion h
    · refine ⟨⟨fun hex => ?_, fun hrc => absurd hrc hnrc⟩, fun hrc => absurd hrc hnrc⟩
      obtain ⟨rt, hmem⟩ := hex
      rcases data_phase_mem _ _ _ _ _ _ _ _ hmem with h | h | h
      · simp at h
      · exact Ev.noConfusion h
      · exact Ev.noConfusion h
    · refine ⟨⟨fun _ => hrc, fun _ => ⟨env.pageReadRet, ?_⟩⟩, fun _ => ?_⟩
      · rw [data_phase_trace]
        simp
      · rw [data_phase_trace]
        rfl
    · refine ⟨⟨fun _ => hrc, fun _ => ⟨env.pageReadRet, ?_⟩⟩, fun _ => ?_⟩
      · rw [data_phase_trace]
        simp
      · rw [data_phase_trace]
        rfl

/-- Witness for C6: a QSFP28 access at offset 200 with unknown belief
(cur_page = -1) issues the verification read as its first physical
operation. -/
theorem C6_verification_read_iff_witness :
    (∃ rt, Ev.pageSelectRead rt ∈ (amzn_sfp_rw defaultConfig ⟨100, 2, 0, 2, 2⟩
      ⟨AMZN_SFP_TYPE_QSFP28, -1, 0, 32896, 80⟩ 200 50 true).trace) ∧
    (amzn_sfp_rw defaultConfig ⟨100, 2, 0, 2, 2⟩
      ⟨AMZN_SFP_TYPE_QSFP28, -1, 0, 32896, 80⟩ 200 50 true).trace.head? =
      some (Ev.pageSelectRead 2) :=
  ⟨(C6_verification_read_iff defaultConfig ⟨100, 2, 0, 2, 2⟩
      ⟨AMZN_SFP_TYPE_QSFP28, -1, 0, 32896, 80⟩ 200 50 true (by decide) (by decide)
      (by decide) (by decide) (by decide)).1.mpr (by decide),
   (C6_verification_read_iff defaultConfig ⟨100, 2, 0, 2, 2⟩
      ⟨AMZN_SFP_TYPE_QSFP28, -1, 0, 32896, 80⟩ 200 50 true (by decide) (by decide)
      (by decide) (by decide) (by decide)).2 (by decide)⟩

/-- C5: For every valid paged upper-half access that issues a page-select
write which succeeds (non-negative transfer return), the desired page is
offset / 128 - 1, a value in [0, 256); afterwards the session's believed
page equals that desired page, its timestamp is refreshed to the current
jiffies, and the stored belief is distinct from the -1 unknown sentinel. -/
theorem C5_page_write_success (cfg : Config) (env : Env) (sc : Softc) (o len : Nat)
    (ir : Bool) (hty : isQsfpType sc.sfp_type) (hsz : sc.size = 257 * AMZN_SFP_HALF_SIZE)
    (ho : 128 ≤ o) (h2 : o < sc.size) (h3 : 0 < len) (h4 : o + len ≤ sc.size) :
    ∀ p rt, Ev.pageSelectWrite p rt ∈ (amzn_sfp_rw cfg env sc (o : Int) len ir).trace →
      0 ≤ rt →
      p = o / 128 - 1 ∧ p < 256 ∧
      (amzn_sfp_rw cfg env sc (o : Int) len ir).sc.cur_page = (p : Int) ∧
      (amzn_sfp_rw cfg env sc (o : Int) len ir).sc.cur_page_ts = env.now ∧
      (amzn_sfp_rw cfg env sc (o : Int) len ir).sc.cur_page ≠ -1 := by
  have hdp : qsfp_desired_page o = o / 128 - 1 :=
    qsfp_desired_page_eq o (by simp only [half_size_eq]; omega) (hsz ▸ h2)
  have hdlt : o / 128 - 1 < 256 := by
    have := hsz ▸ h2
    rw [half_size_eq] at this
    omega
  intro p rt hmem hrt
  cases hE : qsfp_ensure_page cfg env sc (qsfp_desired_page o) with
  | error p0 =>
    obtain ⟨e0, sc1, tr⟩ := p0
    rw [rw_qsfp_upper_error cfg env sc o len ir e0 sc1 tr hty
        (by simp only [half_size_eq]; omega) h2 h3 h4 hE] at hmem
    rcases qsfp_ensure_page_error_cases cfg env sc _ e0 sc1 tr hE with
      ⟨_, he0, ⟨_, _, htr⟩ | ⟨_, hew, htr⟩ | ⟨_, _, hew, htr⟩⟩ <;> subst htr <;> simp at hmem
    · obtain ⟨_, hrt'⟩ := hmem
      omega
    · obtain ⟨_, hrt'⟩ := hmem
      omega
  | ok p0 =>
    obtain ⟨sc1, tr⟩ := p0
    rw [rw_qsfp_upper_ok cfg env sc o len ir sc1 tr hty
        (by simp only [half_size_eq]; omega) h2 h3 h4 hE] at hmem ⊢
    rw [data_phase_sc]
    have hmem' : Ev.pageSelectWrite p rt ∈ tr := by
      rcases data_phase_mem _ _ _ _ _ _ _ _ hmem with h | h | h
      · exact h
      · exact Ev.noConfusion h
      · exact Ev.noConfusion h
    rcases qsfp_ensure_page_ok_cases cfg env sc _ sc1 tr hE with
      ⟨_, ⟨_, htr, _⟩ | ⟨_, hsc1, htr⟩⟩ | ⟨_, _, ⟨_, htr, _⟩ | ⟨_, hsc1, htr⟩⟩ <;>
      subst htr <;> simp at hmem'
    · obtain ⟨hp, _⟩ := hmem'
      subst hsc1
      refine ⟨by rw [hp, hdp], by rw [hp, hdp]; exact hdlt, by simp [hp], by simp, ?_⟩
      simp
    · obtain ⟨hp, _⟩ := hmem'
      subst hsc1
      refine ⟨by rw [hp, hdp], by rw [hp, hdp]; exact hdlt, by simp [hp], by simp, ?_⟩
      simp

/-- Witness for C5: QSFP28 session with fresh belief page 3, access at
offset 640 (desired page 4): the page-select write succeeds and the belief
becomes 4 with a refreshed timestamp. -/
theorem C5_page_write_success_witness :
    Ev.pageSelectWrite 4 1 ∈ (amzn_sfp_rw defaultConfig ⟨100, 2, 0, 1, 2⟩
      ⟨AMZN_SFP_TYPE_QSFP28, 3, 100, 32896, 80⟩ 640 10 true).trace ∧
    (amzn_sfp_rw defaultConfig ⟨100, 2, 0, 1, 2⟩
      ⟨AMZN_SFP_TYPE_QSFP28, 3, 100, 32896, 80⟩ 640 10 true).sc.cur_page = 4 ∧
    (amzn_sfp_rw defaultConfig ⟨100, 2, 0, 1, 2⟩
      ⟨AMZN_SFP_TYPE_QSFP28, 3, 100, 32896, 80⟩ 640 10 true).sc.cur_page_ts = 100 :=
  ⟨by decide,
   by exact (C5_page_write_success defaultConfig ⟨100, 2, 0, 1, 2⟩
      ⟨AMZN_SFP_TYPE_QSFP28, 3, 100, 32896, 80⟩ 640 10 true (by decide) (by decide)
      (by decide) (by decide) (by decide) (by decide) 4 1 (by decide) (by decide)).2.2.1,
   by exact (C5_page_write_success defaultConfig ⟨100, 2, 0, 1, 2⟩
      ⟨AMZN_SFP_TYPE_QSFP28, 3, 100, 32896, 80⟩ 640 10 true (by decide) (by decide)
      (by decide) (by decide) (by decide) (by decide) 4 1 (by decide) (by decide)).2.2.2.1⟩

/-- C1 counterexample: a QSFP28 read at offset 512 on a session with a
fresh believed page 3 (so no page-select operation is needed) whose
data-phase transfer fails with -EIO: a physical bus transfer performed
during the access failed and the access returns that error, yet the
believed page afterwards is still 3 — not the -1 unknown sentinel. -/
theorem C1_counterexample :
    ((amzn_sfp_rw defaultConfig ⟨100, 2, 0, 2, -5⟩
        ⟨AMZN_SFP_TYPE_QSFP28, 3, 100, 32896, 80⟩ 512 10 true).trace.any
        Ev.busFailed = true) ∧
    (amzn_sfp_rw defaultConfig ⟨100, 2, 0, 2, -5⟩
        ⟨AMZN_SFP_TYPE_QSFP28, 3, 100, 32896, 80⟩ 512 10 true).ret = -5 ∧
    ¬ (amzn_sfp_rw defaultConfig ⟨100, 2, 0, 2, -5⟩
        ⟨AMZN_SFP_TYPE_QSFP28, 3, 100, 32896, 80⟩ 512 10 true).sc.cur_page = -1 := by
  decide

/-- C1 (amended): if the page-select verification read or the page-select
write fails during an access, the session's believed page afterwards is
the -1 unknown sentinel and the access returns the negative error; the
data-phase transfer, by contrast, never modifies the session state, so its
failure leaves the page belief unchanged. -/
theorem C1_page_op_failure_invalidates (cfg : Config) (env : Env) (sc : Softc)
    (ofs : Int) (len : Nat) (ir : Bool) :
    ((amzn_sfp_rw cfg env sc ofs len ir).trace.any
        (fun e => (e.isPageSelectRead || e.isPageSelectWrite) && e.busFailed) = true →
      (amzn_sfp_rw cfg env sc ofs len ir).sc.cur_page = -1 ∧
      (amzn_sfp_rw cfg env sc ofs len ir).ret < 0) ∧
    (∀ sc0 a g l tr, (data_phase cfg env sc0 a g l ir tr).sc = sc0) := by
  refine ⟨?_, fun sc0 a g l tr => data_phase_sc cfg env sc0 a g l ir tr⟩
  intro h
  rw [List.any_eq_true] at h
  obtain ⟨e, hmem, hcond⟩ := h
  by_cases h0 : ofs < 0 ∨ (sc.size : Int) ≤ ofs
  · rw [rw_out_of_range cfg env sc ofs len ir h0] at hmem
    simp at hmem
  by_cases hl : len = 0
  · subst hl
    rw [rw_zero_len cfg env sc ofs ir (by omega) (by omega)] at hmem
    simp at hmem
  by_cases hsp : (sc.size : Int) < ofs + len
  · rw [rw_out_of_space cfg env sc ofs len ir (by omega) (by omega) (by omega) hsp] at hmem
    simp at hmem
  lift ofs to Nat using (by omega : (0 : Int) ≤ ofs) with o
  have h2 : o < sc.size := by omega
  have h3 : 0 < len := by omega
  have h4 : o + len ≤ sc.size := by omega
  have hnonpaged : ∀ a g l,
      e ∈ (data_phase cfg env sc a g l ir []).trace → False := by
    intro a g l hm
    rcases data_phase_mem _ _ _ _ _ _ _ _ hm with hx | hx | hx
    · simp at hx
    · subst hx
      simp [Ev.isPageSelectRead, Ev.isPageSelectWrite, Ev.busFailed] at hcond
    · subst hx
      simp [Ev.isPageSelectRead, Ev.isPageSelectWrite, Ev.busFailed] at hcond
  by_cases h1 : sc.sfp_type = AMZN_SFP_TYPE_SFP_PLUS
  · rw [rw_sfp_plus cfg env sc o len ir h1 h2 h3 h4] at hmem
    exact absurd hmem (fun hm => hnonpaged _ _ _ hm)
  by_cases hq : isQsfpType sc.sfp_type
  · by_cases ho : o < 128
    · rw [rw_qsfp_lower cfg env sc o len ir hq (by simp only [half_size_eq]; omega)
          h2 h3 h4] at hmem
      exact absurd hmem (fun hm => hnonpaged _ _ _ hm)
    · cases hE : qsfp_ensure_page cfg env sc (qsfp_desired_page o) with
      | error p0 =>
        obtain ⟨e0, sc1, tr⟩ := p0
        rw [rw_qsfp_upper_error cfg env sc o len ir e0 sc1 tr hq
            (by simp only [half_size_eq]; omega) h2 h3 h4 hE]
        obtain ⟨hpg, he0, _⟩ := qsfp_ensure_page_error_cases cfg env sc _ e0 sc1 tr hE
        exact ⟨hpg, he0⟩
      | ok p0 =>
        obtain ⟨sc1, tr⟩ := p0
        rw [rw_qsfp_upper_ok cfg env sc o len ir sc1 tr hq
            (by simp only [half_size_eq]; omega) h2 h3 h4 hE] at hmem
        have hmem' : e ∈ tr := by
          rcases data_phase_mem _ _ _ _ _ _ _ _ hmem with hx | hx | hx
          · exact hx
          · subst hx
            simp [Ev.isPageSelectRead, Ev.isPageSelectWrite, Ev.busFailed] at hcond
          · subst hx
            simp [Ev.isPageSelectRead, Ev.isPageSelectWrite, Ev.busFailed] at hcond
        rcases qsfp_ensure_page_ok_cases cfg env sc _ sc1 tr hE with
          ⟨_, ⟨_, htr, _⟩ | ⟨hw, _, htr⟩⟩ | ⟨_, hr, ⟨_, htr, _⟩ | ⟨hw, _, htr⟩⟩ <;>
          subst htr <;> simp at hmem'
        · subst hmem'
          simp [Ev.isPageSelectRead, Ev.isPageSelectWrite, Ev.busFailed] at hcond
          omega
        · subst hmem'
          simp [Ev.isPageSelectRead, Ev.isPageSelectWrite, Ev.busFailed] at hcond
          omega
        · rcases hmem' with hx | hx <;> subst hx <;>
            simp [Ev.isPageSelectRead, Ev.isPageSelectWrite, Ev.busFailed] at hcond <;>
            omega
  · rw [rw_unknown_type cfg env sc o len ir h1 hq h2 h3 h4] at hmem
    exact absurd hmem (fun hm => hnonpaged _ _ _ hm)

/-- Witness for C1 (amended): QSFP28 session with fresh belief page 3,
access at offset 640 (desired page 4) whose page-select write fails with
-EIO: the access returns the error and the belief becomes the sentinel. -/
theorem C1_page_op_failure_invalidates_witness :
    (amzn_sfp_rw defaultConfig ⟨100, 2, 0, -5, 2⟩
      ⟨AMZN_SFP_TYPE_QSFP28, 3, 100, 32896, 80⟩ 640 10 true).sc.cur_page = -1 ∧
    (amzn_sfp_rw defaultConfig ⟨100, 2, 0, -5, 2⟩
      ⟨AMZN_SFP_TYPE_QSFP28, 3, 100, 32896, 80⟩ 640 10 true).ret < 0 :=
  (C1_page_op_failure_invalidates defaultConfig ⟨100, 2, 0, -5, 2⟩
    ⟨AMZN_SFP_TYPE_QSFP28, 3, 100, 32896, 80⟩ 640 10 true).1 (by decide)

theorem ep_ok_cur_page (cfg : Config) (env : Env) (sc : Softc) (d : Nat) (sc1 : Softc)
    (tr : List Ev) (h : qsfp_ensure_page cfg env sc d = .ok (sc1, tr)) :
    sc1.cur_page = (d : Int) := by
  rcases qsfp_ensure_page_ok_cases cfg env sc d sc1 tr h with
    ⟨_, ⟨hsc1, _, hd⟩ | ⟨_, hsc1, _⟩⟩ | ⟨_, _, ⟨hsc1, _, hd⟩ | ⟨_, hsc1, _⟩⟩ <;> subst hsc1
  · exact hd.symm
  · rfl
  · exact hd.symm
  · rfl

theorem ep_ok_preserves (cfg : Config) (env : Env) (sc : Softc) (d : Nat) (sc1 : Softc)
    (tr : List Ev) (h : qsfp_ensure_page cfg env sc d = .ok (sc1, tr)) :
    sc1.sfp_type = sc.sfp_type ∧ sc1.size = sc.size ∧ sc1.addr = sc.addr := by
  rcases qsfp_ensure_page_ok_cases cfg env sc d sc1 tr h with
    ⟨_, ⟨hsc1, _, _⟩ | ⟨_, hsc1, _⟩⟩ | ⟨_, _, ⟨hsc1, _, _⟩ | ⟨_, hsc1, _⟩⟩ <;> subst hsc1 <;>
    exact ⟨rfl, rfl, rfl⟩

/-- C4: For every paged session and desired page, two successive valid
upper-half accesses at the same offset — the first fully successful, the
second arriving while the first's refreshed belief is still within the
retention window — issue at most one physical page-select write in total:
the second access performs no page-select write (and no verification read
either), because the believed page already equals the desired page. -/
theorem C4_page_write_idempotent (cfg : Config) (env1 env2 : Env) (sc : Softc)
    (o len1 len2 : Nat) (ir1 ir2 : Bool)
    (hty : isQsfpType sc.sfp_type) (ho : 128 ≤ o)
    (h2 : o < sc.size) (h31 : 0 < len1) (h41 : o + len1 ≤ sc.size)
    (h32 : 0 < len2) (h42 : o + len2 ≤ sc.size)
    (hret1 : 0 ≤ (amzn_sfp_rw cfg env1 sc (o : Int) len1 ir1).ret)
    (hwin : time_in_range env2.now
      (amzn_sfp_rw cfg env1 sc (o : Int) len1 ir1).sc.cur_page_ts
      ((amzn_sfp_rw cfg env1 sc (o : Int) len1 ir1).sc.cur_page_ts +
        cfg.page_retention * cfg.hz) = true) :
    ((amzn_sfp_rw cfg env2 (amzn_sfp_rw cfg env1 sc (o : Int) len1 ir1).sc
        (o : Int) len2 ir2).trace.filter Ev.isPageSelectWrite) = [] ∧
    ((amzn_sfp_rw cfg env2 (amzn_sfp_rw cfg env1 sc (o : Int) len1 ir1).sc
        (o : Int) len2 ir2).trace.filter Ev.isPageSelectRead) = [] ∧
    ((amzn_sfp_rw cfg env1 sc (o : Int) len1 ir1).trace.filter
        Ev.isPageSelectWrite).length +
      ((amzn_sfp_rw cfg env2 (amzn_sfp_rw cfg env1 sc (o : Int) len1 ir1).sc
        (o : Int) len2 ir2).trace.filter Ev.isPageSelectWrite).length ≤ 1 := by
  cases hE1 : qsfp_ensure_page cfg env1 sc (qsfp_desired_page o) with
  | error p0 =>
    obtain ⟨e0, sc1, tr⟩ := p0
    rw [rw_qsfp_upper_error cfg env1 sc o len1 ir1 e0 sc1 tr hty
        (by simp only [half_size_eq]; omega) h2 h31 h41 hE1] at hret1
    have he0 := (qsfp_ensure_page_error_cases cfg env1 sc _ e0 sc1 tr hE1).2.1
    simp at hret1
    omega
  | ok p0 =>
    obtain ⟨sc1, tr⟩ := p0
    have hrw1 := rw_qsfp_upper_ok cfg env1 sc o len1 ir1 sc1 tr hty
        (by simp only [half_size_eq]; omega) h2 h31 h41 hE1
    rw [hrw1] at hwin ⊢
    rw [data_phase_sc] at hwin ⊢
    have hcp : sc1.cur_page = (qsfp_desired_page o : Int) :=
      ep_ok_cur_page cfg env1 sc _ sc1 tr hE1
    obtain ⟨hpty, hpsz, hpad⟩ := ep_ok_preserves cfg env1 sc _ sc1 tr hE1
    have hnrc : ¬ (sc1.cur_page = -1 ∨ time_in_range env2.now sc1.cur_page_ts
        (sc1.cur_page_ts + cfg.page_retention * cfg.hz) = false) := by
      rintro (hc | hc)
      · rw [hcp] at hc
        omega
      · rw [hwin] at hc
        simp at hc
    have hE2 : qsfp_ensure_page cfg env2 sc1 (qsfp_desired_page o) = .ok (sc1, []) := by
      simp only [qsfp_ensure_page]
      rw [if_neg hnrc]
      simp only [qsfp_write_page]
      rw [if_pos hcp.symm]
    rw [rw_qsfp_upper_ok cfg env2 sc1 o len2 ir2 sc1 [] (by rw [hpty]; exact hty)
        (by simp only [half_size_eq]; omega) (by rw [hpsz]; exact h2) h32
        (by rw [hpsz]; exact h42) hE2]
    refine ⟨?_, ?_, ?_⟩
    · rw [(data_phase_filter_page cfg env2 sc1 sc1.addr _ _ ir2 []).1]
      rfl
    · rw [(data_phase_filter_page cfg env2 sc1 sc1.addr _ _ ir2 []).2]
      rfl
    · rw [(data_phase_filter_page cfg env1 sc1 sc.addr _ _ ir1 tr).1,
        (data_phase_filter_page cfg env2 sc1 sc1.addr _ _ ir2 []).1]
      rcases qsfp_ensure_page_ok_cases cfg env1 sc _ sc1 tr hE1 with
        ⟨_, ⟨_, htr, _⟩ | ⟨_, _, htr⟩⟩ | ⟨_, _, ⟨_, htr, _⟩ | ⟨_, _, htr⟩⟩ <;> subst htr <;>
        simp [Ev.isPageSelectWrite]

/-- Witness for C4: QSFP28 session with unknown belief; a first successful
read at offset 200 (verification read observes page 0, no write needed),
then a second read at the same offset 50 jiffies later: the second access
issues no page-select operation at all, and the two accesses together
issue zero page-select writes. -/
theorem C4_page_write_idempotent_witness :
    ((amzn_sfp_rw defaultConfig ⟨150, 2, 0, 2, 2⟩
        (amzn_sfp_rw defaultConfig ⟨100, 2, 0, 2, 2⟩
          ⟨AMZN_SFP_TYPE_QSFP28, -1, 0, 32896, 80⟩ 200 50 true).sc
        200 20 true).trace.filter Ev.isPageSelectWrite) = [] ∧
    ((amzn_sfp_rw defaultConfig ⟨150, 2, 0, 2, 2⟩
        (amzn_sfp_rw defaultConfig ⟨100, 2, 0, 2, 2⟩
          ⟨AMZN_SFP_TYPE_QSFP28, -1, 0, 32896, 80⟩ 200 50 true).sc
        200 20 true).trace.filter Ev.isPageSelectRead) = [] :=
  ⟨(C4_page_write_idempotent defaultConfig ⟨100, 2, 0, 2, 2⟩ ⟨150, 2, 0, 2, 2⟩
      ⟨AMZN_SFP_TYPE_QSFP28, -1, 0, 32896, 80⟩ 200 50 20 true true (by decide) (by decide)
      (by decide) (by decide) (by decide) (by decide) (by decide) (by decide) (by decide)).1,
   (C4_page_write_idempotent defaultConfig ⟨100, 2, 0, 2, 2⟩ ⟨150, 2, 0, 2, 2⟩
      ⟨AMZN_SFP_TYPE_QSFP28, -1, 0, 32896, 80⟩ 200 50 20 true true (by decide) (by decide)
      (by decide) (by decide) (by decide) (by decide) (by decide) (by decide) (by decide)).2.1⟩

/-- C3 counterexample: a QSFP28 access at offset 128 with unknown belief:
the verification read observes that page 0 is already selected, so no
page-select write is issued in this critical section — yet because the
verification read refreshed the timestamp, the settle-delay sleep is
performed before the data phase.  This refutes the claim that the sleep
happens only if the page-select register was written in the same critical
section. -/
theorem C3_counterexample :
    (∃ us, Ev.sleepSettle us ∈ (amzn_sfp_rw defaultConfig ⟨100, 2, 0, 2, 2⟩
        ⟨AMZN_SFP_TYPE_QSFP28, -1, 0, 32896, 80⟩ 128 4 true).trace) ∧
    ((amzn_sfp_rw defaultConfig ⟨100, 2, 0, 2, 2⟩
        ⟨AMZN_SFP_TYPE_QSFP28, -1, 0, 32896, 80⟩ 128 4 true).trace.filter
        Ev.isPageSelectWrite) = [] :=
  ⟨⟨4000, by decide⟩, by decide⟩

/-- C3 (amended): For every access that reaches the data phase, the
settle-delay sleep is performed if and only if the current time lies
within `msecs_to_jiffies(page_load_wait_ms)` of the session's page
timestamp — a timestamp refreshed by the page-select write AND by the
page-select verification read, possibly during an earlier access rather
than the current critical section; when performed, the sleep lasts the
full `page_load_wait_ms` (in microseconds), which is at least the
remaining portion of the settle window. -/
theorem C3_settle_delay_iff (cfg : Config) (env : Env) (sc : Softc) (ofs : Int)
    (len : Nat) (ir : Bool)
    (hdata : ∃ a g l b rt,
      Ev.dataTransfer a g l b rt ∈ (amzn_sfp_rw cfg env sc ofs len ir).trace) :
    ((∃ us, Ev.sleepSettle us ∈ (amzn_sfp_rw cfg env sc ofs len ir).trace) ↔
      time_in_range env.now (amzn_sfp_rw cfg env sc ofs len ir).sc.cur_page_ts
        ((amzn_sfp_rw cfg env sc ofs len ir).sc.cur_page_ts +
          msecs_to_jiffies cfg.hz cfg.page_load_wait_ms) = true) ∧
    (∀ us, Ev.sleepSettle us ∈ (amzn_sfp_rw cfg env sc ofs len ir).trace →
      us = cfg.page_load_wait_ms * 1000) := by
  have main : ∀ (scX : Softc) (aX gX lX : Nat) (trX : List Ev),
      (∀ us, Ev.sleepSettle us ∉ trX) →
      ((∃ us, Ev.sleepSettle us ∈ (data_phase cfg env scX aX gX lX ir trX).trace) ↔
        time_in_range env.now (data_phase cfg env scX aX gX lX ir trX).sc.cur_page_ts
          ((data_phase cfg env scX aX gX lX ir trX).sc.cur_page_ts +
            msecs_to_jiffies cfg.hz cfg.page_load_wait_ms) = true) ∧
      (∀ us, Ev.sleepSettle us ∈ (data_phase cfg env scX aX gX lX ir trX).trace →
        us = cfg.page_load_wait_ms * 1000) := by
    intro scX aX gX lX trX hnos
    rw [data_phase_sc]
    refine ⟨⟨?_, ?_⟩, ?_⟩
    · rintro ⟨us, hm⟩
      exact ((data_phase_sleep_mem_iff cfg env scX aX gX lX ir trX hnos us).1 hm).2
    · intro hc
      exact ⟨cfg.page_load_wait_ms * 1000,
        (data_phase_sleep_mem_iff cfg env scX aX gX lX ir trX hnos _).2 ⟨rfl, hc⟩⟩
    · intro us hm
      exact ((data_phase_sleep_mem_iff cfg env scX aX gX lX ir trX hnos us).1 hm).1
  obtain ⟨a0, g0, l0, b0, rt0, hdm⟩ := hdata
  by_cases h0 : ofs < 0 ∨ (sc.size : Int) ≤ ofs
  · rw [rw_out_of_range cfg env sc ofs len ir h0] at hdm
    simp at hdm
  by_cases hl : len = 0
  · subst hl
    rw [rw_zero_len cfg env sc ofs ir (by omega) (by omega)] at hdm
    simp at hdm
  by_cases hsp : (sc.size : Int) < ofs + len
  · rw [rw_out_of_space cfg env sc ofs len ir (by omega) (by omega) (by omega) hsp] at hdm
    simp at hdm
  lift ofs to Nat using (by omega : (0 : Int) ≤ ofs) with o
  have h2 : o < sc.size := by omega
  have h3 : 0 < len := by omega
  have h4 : o + len ≤ sc.size := by omega
  have hnil : ∀ us, Ev.sleepSettle us ∉ ([] : List Ev) := by
    intro us hm
    simp at hm
  by_cases h1 : sc.sfp_type = AMZN_SFP_TYPE_SFP_PLUS
  · rw [rw_sfp_plus cfg env sc o len ir h1 h2 h3 h4]
    exact main _ _ _ _ _ hnil
  by_cases hq : isQsfpType sc.sfp_type
  · by_cases ho : o < 128
    · rw [rw_qsfp_lower cfg env sc o len ir hq (by simp only [half_size_eq]; omega) h2 h3 h4]
      exact main _ _ _ _ _ hnil
    · cases hE : qsfp_ensure_page cfg env sc (qsfp_desired_page o) with
      | error p0 =>
        obtain ⟨e0, sc1, tr⟩ := p0
        rw [rw_qsfp_upper_error cfg env sc o len ir e0 sc1 tr hq
            (by simp only [half_size_eq]; omega) h2 h3 h4 hE] at hdm
        rcases ep_error_mem cfg env sc _ e0 sc1 tr hE _ hdm with hx | hx <;>
          exact Ev.noConfusion hx
      | ok p0 =>
        obtain ⟨sc1, tr⟩ := p0
        rw [rw_qsfp_upper_ok cfg env sc o len ir sc1 tr hq
            (by simp only [half_size_eq]; omega) h2 h3 h4 hE]
        refine main _ _ _ _ _ ?_
        intro us hm
        rcases ep_ok_mem cfg env sc _ sc1 tr hE _ hm with hx | hx <;>
          exact Ev.noConfusion hx
  · rw [rw_unknown_type cfg env sc o len ir h1 hq h2 h3 h4]
    exact main _ _ _ _ _ hnil

/-- Witness for C3 (amended): the counterexample scenario reaches the data
phase; the timestamp was refreshed to the current jiffies by the
verification read, so the settle sleep of 4000 microseconds occurs. -/
theorem C3_settle_delay_iff_witness :
    (∃ us, Ev.sleepSettle us ∈ (amzn_sfp_rw defaultConfig ⟨100, 2, 0, 2, 2⟩
        ⟨AMZN_SFP_TYPE_QSFP28, -1, 0, 32896, 80⟩ 128 4 true).trace) ∧
    (∀ us, Ev.sleepSettle us ∈ (amzn_sfp_rw defaultConfig ⟨100, 2, 0, 2, 2⟩
        ⟨AMZN_SFP_TYPE_QSFP28, -1, 0, 32896, 80⟩ 128 4 true).trace → us = 4000) :=
  ⟨(C3_settle_delay_iff defaultConfig ⟨100, 2, 0, 2, 2⟩
      ⟨AMZN_SFP_TYPE_QSFP28, -1, 0, 32896, 80⟩ 128 4 true
      ⟨80, 128, 4, true, 2, by decide⟩).1.mpr (by decide),
   (C3_settle_delay_iff defaultConfig ⟨100, 2, 0, 2, 2⟩
      ⟨AMZN_SFP_TYPE_QSFP28, -1, 0, 32896, 80⟩ 128 4 true
      ⟨80, 128, 4, true, 2, by decide⟩).2⟩

end AmznSfp
